import Mathlib

/-!
Shallow embedding of the freajs/gcp-mirror replication pipeline.

The embedding covers the three Cloud Function style handlers of the
repository and the long-lived follower process:

* `tarballs` — from `src/tarballs/index.js` (the deployed replicator):
  decodes the url from the Pub/Sub message payload, destructures
  `path`/`shasum` from the message attributes, streams the download
  through a digest transform into the object store, and on a digest
  mismatch deletes the destination key.
* `packages` — from `src/packages/index.js` (the deployed dispatcher):
  resolves a package manifest, validates it, and fans out tarball
  publishes, per-version manifest writes and the index write.
* the follower — from the Firestore-backed follower source
  (`src/unnamed/part_001`): startup cursor read, the publish-completion
  cursor update rule, and the coalesced periodic checkpoint write.

Handlers are embedded as pure functions from the message plus an
environment (the outcomes of the external calls the handler makes) to a
trace of observable effects, in the order the single-threaded handler
issues them.  Pub/Sub payloads are modelled after base64 decoding: the
`data` field holds the decoded string, `none` models an absent payload
(`Buffer.from(message.data || '', 'base64').toString()` yields the empty
string in that case).  A handler that throws before reaching its
callback is modelled by `Except.error`.
-/

namespace GcpMirror

/-- JS truthiness restricted to the optional string fields the handlers
test with `!x`: `undefined`/`null` (modelled by `none`) and the empty
string are falsy, every other string is truthy. -/
def truthy : Option String → Bool
  | none => false
  | some s => decide (s ≠ "")

/-- Observable effects of one handler invocation, in issue order:
log lines, a Pub/Sub publish of an artifact task, an object-store write
at a key, an object-store delete at a key, and the invocation of the
hosting scheduler's completion callback with its error argument. -/
inductive Effect where
  | logInfo (msg : String)
  | logError (msg : String)
  | publishTarball (url : String) (path : String) (shasum : String)
  | writeObject (key : String)
  | deleteObject (key : String)
  | callbackFired (err : Option String)
deriving DecidableEq, Repr

/-- The `path`/`shasum` attribute pair destructured by the tarballs
handler from `message.attributes`.  Each field is optional: a missing
key destructures to `undefined` (modelled by `none`) without throwing;
an empty string is also representable, and is falsy exactly like
`undefined` wherever the pipeline tests the value. -/
structure TarballAttrs where
  path : Option String
  shasum : Option String
deriving DecidableEq, Repr

/-- A Pub/Sub message as the handlers see it: an optional (already
base64-decoded) payload and an optional attributes map.  `attributes =
none` models a message whose attributes object is absent, on which JS
destructuring throws. -/
structure PubSubMessage where
  data : Option String
  attributes : Option TarballAttrs
deriving DecidableEq, Repr

/-- Environment of one tarballs invocation: the terminal outcome of the
download/upload stream pipeline (`some e` is a transport error), the
finalized lowercase-hex digest of the streamed bytes as produced by
`integrity.read()`, and the outcome of `file.delete`.  The delete
outcome is carried for completeness: the handler passes its
once-wrapped, argument-discarding callback straight to `file.delete`,
so no effect of the invocation depends on it. -/
structure TarballEnv where
  pipeError : Option String
  hash : String
  deleteError : Option String
deriving DecidableEq, Repr

/-- Embedding of `exports.tarballs` from `src/tarballs/index.js`.

Source shape: `url` is decoded from `message.data || ''`; `const { path,
shasum } = message.attributes` throws a TypeError when the attributes
map is absent; `log.info('processing')`; an empty url is logged and
discarded; past that guard `const file = bucket.file(path)` throws
synchronously when `path` is falsy (missing key or empty string — the
storage library raises `A file name must be specified.`), after the
completion callback has been built but before it can ever fire; with a
truthy path, a stream error is logged and the task finished; otherwise
`integrity.read()` is compared with `hash === shasum` (strict string
equality, false when the shasum attribute is missing); on mismatch the
handler logs `failed integrity check` and calls `file.delete(callback)`,
the callback ignoring the delete's error argument.  A thrown error is
modelled by `Except.error`, which discards the effects issued before
the throw (only the `processing` info line, in the falsy-path case). -/
def tarballs (msg : PubSubMessage) (env : TarballEnv) : Except String (List Effect) :=
  let url := msg.data.getD ""
  match msg.attributes with
  | none => .error "TypeError: cannot destructure message.attributes"
  | some attrs =>
    if url.length = 0 then
      .ok ([Effect.logInfo "processing"] ++
        [Effect.logError "invalid message length", Effect.callbackFired none])
    else if ¬ truthy attrs.path then
      .error "Error: A file name must be specified."
    else
      match env.pipeError with
      | some _ =>
        .ok ([Effect.logInfo "processing"] ++
          [Effect.logError "failed to download/upload", Effect.callbackFired none])
      | none =>
        if some env.hash = attrs.shasum then
          .ok ([Effect.logInfo "processing"] ++ [Effect.callbackFired none])
        else
          .ok ([Effect.logInfo "processing"] ++
            [Effect.logError "failed integrity check",
             Effect.deleteObject (attrs.path.getD ""), Effect.callbackFired none])

/-- The trace of a handler run that did not throw (`[]` for a run that
threw before issuing its first effect is never used at a throwing input
by the theorems below without saying so). -/
def okTrace : Except String (List Effect) → List Effect
  | .ok tr => tr
  | .error _ => []

/-- A manifest-level or version-level json document, reduced to the one
field the dispatcher inspects (`.name`); the rest of the document is
opaque to every control-flow decision of the handler. -/
structure JsonDoc where
  name : Option String
deriving DecidableEq, Repr

/-- One element of `manifest.versions` as `handleVersion` inspects it:
an optional embedded json document and an optional version string. -/
structure VersionRec where
  json : Option JsonDoc
  version : Option String
deriving DecidableEq, Repr

/-- One element of `manifest.tarballs` as `handleTarball` inspects it:
the destination path, the expected shasum, and the source url (the
`tarball` field). -/
structure TarballRec where
  path : Option String
  shasum : Option String
  tarball : Option String
deriving DecidableEq, Repr

/-- The resolved manifest as `src/packages/index.js` inspects it.  The
`versions` and `tarballs` collections are `none` when falsy/missing and
`some` when present as arrays (the deployed handler performs no
`Array.isArray` check; a present-but-non-array collection is outside
this embedding).  `json` is the package-level document; the deployed
handler only ever inspects it inside `uploadIndex`. -/
structure Manifest where
  json : Option JsonDoc
  versions : Option (List VersionRec)
  tarballs : Option (List TarballRec)
deriving DecidableEq, Repr

/-- Environment of one packages invocation: the outcome of
`registry.get` for the decoded package name, and the outcome of each
external call of the fan-out, keyed by the entry it serves.  The write
outcomes are carried for completeness: the source's `handleVersion` and
`uploadIndex` finish handlers log the same line whether or not `e` is
set and then call back with no arguments, so no effect depends on them. -/
structure PackagesEnv where
  resolve : Except String Manifest
  publishError : TarballRec → Option String
  versionWriteError : VersionRec → Option String
  indexWriteError : Option String

/-- Embedding of `handleTarball` from `src/packages/index.js`: the three
required fields are validated individually (a falsy field is logged and
the entry skipped); a well-formed entry yields one `topic.publish`
attempt whose payload is the url and whose attributes carry
`String(path)`/`String(shasum)`; a publish error is logged; the
iteratee's own callback carries no error in every path. -/
def handleTarball (t : TarballRec) (pubErr : Option String) : List Effect :=
  if ¬ truthy t.path then [Effect.logError "tarball did not include path"]
  else if ¬ truthy t.shasum then [Effect.logError "tarball did not include shasum"]
  else if ¬ truthy t.tarball then [Effect.logError "tarball did not include url"]
  else
    Effect.publishTarball (t.tarball.getD "") (t.path.getD "") (t.shasum.getD "") ::
      (match pubErr with
       | some _ => [Effect.logError "failed to publish message"]
       | none => [])

/-- The storage key `path.flatten(name, version, 'index.json')` used by
`handleVersion`, modelled as slash concatenation (the names in play are
plain relative segments). -/
def versionKey (name ver : String) : String :=
  name ++ "/" ++ ver ++ "/index.json"

/-- Embedding of `handleVersion` from `src/packages/index.js`: the
`json.name` and `version` fields are validated (falsy is logged and the
entry skipped); a well-formed entry yields one storage write attempt at
its version key.  The deployed revision's finish handler logs
`failed to download/upload` unconditionally — with or without an error —
and calls back with no arguments, so the trace does not depend on the
write outcome `_e`. -/
def handleVersion (v : VersionRec) (_e : Option String) : List Effect :=
  match v.json with
  | none => [Effect.logError "version did not include json.name"]
  | some j =>
    if ¬ truthy j.name then [Effect.logError "version did not include json.name"]
    else if ¬ truthy v.version then [Effect.logError "version did not include version"]
    else [Effect.writeObject (versionKey (j.name.getD "") (v.version.getD "")),
          Effect.logError "failed to download/upload"]

/-- Embedding of `uploadIndex` from `src/packages/index.js`: it receives
the whole manifest, validates `index.json`/`index.json.name`, and on
success yields one storage write attempt at `name/index.json`.  Like
`handleVersion`, the deployed revision logs its failure line
unconditionally and calls back with no arguments. -/
def uploadIndex (m : Manifest) (_e : Option String) : List Effect :=
  match m.json with
  | none => [Effect.logError "index did not include json.name"]
  | some j =>
    if ¬ truthy j.name then [Effect.logError "index did not include json.name"]
    else [Effect.writeObject ((j.name.getD "") ++ "/index.json"),
          Effect.logError "failed to download/upload"]

/-- Embedding of `exports.packages` from `src/packages/index.js`.

Source shape: the package name is decoded from `message.data || ''`; an
empty name is logged and discarded; a resolver error is logged and the
invocation finished; falsy `manifest.versions` and `manifest.tarballs`
each abort the invocation (the deployed revision logs the same
`Didnt resolve versions` line for both); otherwise `async.parallel`
runs the tarball fan-out, the version fan-out and the index upload —
none of whose iteratees ever pass an error — and its join fires the
once-wrapped invocation callback with a null error.  The trace
serializes the three obligations in the order they are listed; the
completion callback is the final effect. -/
def packages (msg : PubSubMessage) (env : PackagesEnv) : List Effect :=
  if (msg.data.getD "").length = 0 then
    [Effect.logError "invalid message length", Effect.callbackFired none]
  else
    match env.resolve with
    | .error _ => [Effect.logError "failed to fetch manifest", Effect.callbackFired none]
    | .ok m =>
      match m.versions with
      | none => [Effect.logError "Didnt resolve versions", Effect.callbackFired none]
      | some vs =>
        match m.tarballs with
        | none => [Effect.logError "Didnt resolve versions", Effect.callbackFired none]
        | some ts =>
          (ts.map (fun t => handleTarball t (env.publishError t))).flatten
            ++ (vs.map (fun v => handleVersion v (env.versionWriteError v))).flatten
            ++ uploadIndex m env.indexWriteError
            ++ [Effect.callbackFired none]

/-- Number of completion-callback invocations recorded in a trace. -/
def callbackCount (tr : List Effect) : Nat :=
  tr.countP (fun e => match e with | Effect.callbackFired _ => true | _ => false)

/-- Whether an effect is an outward attempt of the dispatcher fan-out: a
task publish or a storage write. -/
def isAttempt : Effect → Bool
  | Effect.publishTarball _ _ _ => true
  | Effect.writeObject _ => true
  | _ => false

/-- The fan-out attempts recorded in a trace. -/
def attempts (tr : List Effect) : List Effect :=
  tr.filter isAttempt

/-- A tarball entry passing all three field validations of
`handleTarball`. -/
def wellFormedTarball (t : TarballRec) : Bool :=
  truthy t.path && truthy t.shasum && truthy t.tarball

/-- A version entry passing both field validations of `handleVersion`. -/
def wellFormedVersion (v : VersionRec) : Bool :=
  (match v.json with | none => false | some j => truthy j.name) && truthy v.version

/-- The cursor update performed in `topicPublished`, the completion
callback of the follower's `topic.publish` (from the Firestore follower
source): `if (change.seq > seq) seq = change.seq`, run on success and on
failure alike. -/
def topicPublished (seq changeSeq : Int) : Int :=
  if changeSeq > seq then changeSeq else seq

/-- The in-memory cursor after a sequence of publish-attempt
completions, starting from the startup cursor. -/
def runPublishes (start : Int) (completed : List Int) : Int :=
  completed.foldl topicPublished start

/-- State of the follower's checkpoint machinery: the `syncingSeq`
coalescing flag, the value carried by the outstanding `doc.set` if one
is in flight, the in-memory cursor `seq`, and the last successfully
persisted value. -/
structure SyncState where
  syncingSeq : Bool
  inflight : Option Int
  seq : Int
  persisted : Option Int
deriving DecidableEq, Repr

/-- Events driving the checkpoint machinery: a 5s timer tick invoking
`syncSeq`, the settlement of the outstanding `doc.set` (its `.then` on
success, its `.catch` on failure), and a publish-completion updating the
cursor through `topicPublished`. -/
inductive SyncEvent where
  | tick
  | settle (ok : Bool)
  | change (n : Int)
deriving DecidableEq, Repr

/-- One step of the checkpoint machinery, from the Firestore follower
source: `syncSeq` returns immediately when `syncingSeq` is set,
otherwise sets the flag and starts `doc.set({ seq })` with the cursor
value read at call time; both settlement handlers clear the flag, the
success handler having persisted the written value; a publish completion
only touches the cursor.  A `settle` with no write outstanding cannot
occur and leaves the state unchanged. -/
def syncStep (s : SyncState) : SyncEvent → SyncState
  | SyncEvent.tick =>
    if s.syncingSeq then s
    else { s with syncingSeq := true, inflight := some s.seq }
  | SyncEvent.settle ok =>
    match s.inflight with
    | none => s
    | some v =>
      { s with syncingSeq := false, inflight := none,
               persisted := if ok then some v else s.persisted }
  | SyncEvent.change n => { s with seq := topicPublished s.seq n }

/-- Follower state right after startup: no persist in flight, cursor at
the value read from the checkpoint document. -/
def initSync (startSeq : Int) : SyncState :=
  { syncingSeq := false, inflight := none, seq := startSeq, persisted := none }

/-- The checkpoint machinery state after a sequence of events from
startup. -/
def runSync (startSeq : Int) (evs : List SyncEvent) : SyncState :=
  evs.foldl syncStep (initSync startSeq)

/-- The checkpoint document as `doc.get()` resolves it: whether the
document exists and the stored cursor. -/
structure CheckpointDoc where
  docExists : Bool
  seq : Int
deriving DecidableEq, Repr

/-- Outcome of follower startup: a fatal `process.exit(1)`, or
subscribing to the change feed (`startFollowing`) from a cursor. -/
inductive StartupOutcome where
  | exitFatal
  | following (since : Int)
deriving DecidableEq, Repr

/-- Embedding of the follower's startup handler (the `doc.get()`
promise chain of the Firestore follower source): a rejected read exits
fatally; a document that does not exist exits fatally; otherwise the
process starts following from exactly the stored cursor. -/
def followerStartup : Except String CheckpointDoc → StartupOutcome
  | .error _ => StartupOutcome.exitFatal
  | .ok d => if d.docExists then StartupOutcome.following d.seq else StartupOutcome.exitFatal

/-! ### Helper lemmas about the tarballs handler -/

/-- Branch-by-branch description of a tarballs run whose message carries
an attributes map. -/
theorem tarballs_attrs_eq (mdata : Option String) (attrs : TarballAttrs) (env : TarballEnv) :
    tarballs ⟨mdata, some attrs⟩ env =
      if (mdata.getD "").length = 0 then
        .ok [Effect.logInfo "processing", Effect.logError "invalid message length",
          Effect.callbackFired none]
      else if ¬ truthy attrs.path then
        .error "Error: A file name must be specified."
      else
        .ok (Effect.logInfo "processing" ::
          (match env.pipeError with
          | some _ => [Effect.logError "failed to download/upload", Effect.callbackFired none]
          | none =>
            if some env.hash = attrs.shasum then [Effect.callbackFired none]
            else [Effect.logError "failed integrity check",
                  Effect.deleteObject (attrs.path.getD ""), Effect.callbackFired none])) := by
  by_cases h : (mdata.getD "").length = 0 <;>
    by_cases hp : truthy attrs.path <;>
      cases hpe : env.pipeError <;>
        by_cases hh : some env.hash = attrs.shasum <;>
          simp [tarballs, h, hp, hpe, hh]

/-! ### Claim C1 -/

/-- C1: for every artifact task processed by the tarballs handler (a
message with a decoded url and an attributes map carrying a truthy
destination path, as every task published by the dispatcher does), a
delete of the destination key is issued if and only if the stream
pipeline completed without a transport error and the finalized digest
differs from the expected shasum; on a digest match and on any
mid-stream download/upload failure no delete call is made. -/
theorem c1_delete_iff_digest_mismatch (mdata : Option String) (attrs : TarballAttrs)
    (env : TarballEnv) (hpath : truthy attrs.path = true) :
    Effect.deleteObject (attrs.path.getD "") ∈ okTrace (tarballs ⟨mdata, some attrs⟩ env) ↔
      ((mdata.getD "").length ≠ 0 ∧ env.pipeError = none ∧ some env.hash ≠ attrs.shasum) := by
  rw [tarballs_attrs_eq]
  by_cases h : (mdata.getD "").length = 0 <;>
    cases hpe : env.pipeError <;>
      by_cases hh : some env.hash = attrs.shasum <;>
        simp [okTrace, h, hpath, hpe, hh]

/-- Witness for `c1_delete_iff_digest_mismatch` at a concrete task
whose streamed bytes digest differently from the expected shasum. -/
theorem c1_witness :
    Effect.deleteObject "p" ∈
      okTrace (tarballs ⟨some "u", some ⟨some "p", some "ab"⟩⟩ ⟨none, "zz", none⟩) :=
  (c1_delete_iff_digest_mismatch (some "u") ⟨some "p", some "ab"⟩ ⟨none, "zz", none⟩
    (by decide)).mpr (by decide)

/-! ### Claim C5 -/

/-- C5 counterexample: an expected shasum that denotes the same digest
value in uppercase hex (`"AB"` against the computed lowercase `"ab"`)
fails the handler's strict `hash === shasum` comparison, and a delete of
the destination key occurs — the claimed case/encoding-normalized
comparison does not exist in the code. -/
theorem c5_counterexample :
    Effect.deleteObject "p" ∈
      okTrace (tarballs ⟨some "u", some ⟨some "p", some "AB"⟩⟩ ⟨none, "ab", none⟩) := by
  decide

/-- C5 amended: the VERIFY comparison is exact string equality on the
computed lowercase-hex digest — for a task that passed validation and
streamed without transport error, no delete occurs if and only if the
expected shasum equals the computed digest byte for byte; any
case-variant spelling of the same digest fails verification. -/
theorem c5_exact_string_compare (mdata : Option String) (attrs : TarballAttrs)
    (env : TarballEnv) (hurl : (mdata.getD "").length ≠ 0)
    (hpath : truthy attrs.path = true) (hpipe : env.pipeError = none) :
    Effect.deleteObject (attrs.path.getD "") ∉ okTrace (tarballs ⟨mdata, some attrs⟩ env) ↔
      some env.hash = attrs.shasum := by
  rw [tarballs_attrs_eq]
  by_cases hh : some env.hash = attrs.shasum <;>
    simp [okTrace, hurl, hpath, hpipe, hh]

/-- Witness for `c5_exact_string_compare` at a concrete matching task. -/
theorem c5_witness :
    Effect.deleteObject "p" ∉
      okTrace (tarballs ⟨some "u", some ⟨some "p", some "ab"⟩⟩ ⟨none, "ab", none⟩) :=
  (c5_exact_string_compare (some "u") ⟨some "p", some "ab"⟩ ⟨none, "ab", none⟩
    (by decide) (by decide) rfl).mpr rfl

/-! ### Claim C7 -/

/-- C7 counterexample: on a digest mismatch whose subsequent
`file.delete` fails, the complete effect trace of the invocation is the
one below — the only error lines are the integrity failure (the
invocation's `processing` info line aside), so the delete failure is
not logged anywhere, contrary to the claim. -/
theorem c7_counterexample :
    tarballs ⟨some "u", some ⟨some "p", some "ab"⟩⟩ ⟨none, "zz", some "delete refused"⟩ =
      Except.ok [Effect.logInfo "processing", Effect.logError "failed integrity check",
        Effect.deleteObject "p", Effect.callbackFired none] := by
  rfl

/-- C7 amended: when digest verification fails, the handler deletes the
object at the destination key and terminates identically for every
outcome of the delete call — the callback reports the same (error-free)
handled result, and the delete failure is not logged (the trace is
exactly the integrity-failure line, the delete, and the callback). -/
theorem c7_cleanup_terminal (mdata : Option String) (attrs : TarballAttrs)
    (env : TarballEnv) (deleteOutcome : Option String)
    (hurl : (mdata.getD "").length ≠ 0) (hpath : truthy attrs.path = true)
    (hpipe : env.pipeError = none) (hmm : some env.hash ≠ attrs.shasum) :
    tarballs ⟨mdata, some attrs⟩ { env with deleteError := deleteOutcome } =
      Except.ok [Effect.logInfo "processing", Effect.logError "failed integrity check",
        Effect.deleteObject (attrs.path.getD ""), Effect.callbackFired none] := by
  rw [tarballs_attrs_eq]
  simp [hurl, hpath, hpipe, hmm]

/-- Witness for `c7_cleanup_terminal` at a concrete mismatching task
with a failing delete. -/
theorem c7_witness :
    tarballs ⟨some "u", some ⟨some "p", some "ab"⟩⟩ ⟨none, "zz", some "delete refused"⟩ =
      Except.ok [Effect.logInfo "processing", Effect.logError "failed integrity check",
        Effect.deleteObject "p", Effect.callbackFired none] :=
  c7_cleanup_terminal (some "u") ⟨some "p", some "ab"⟩ ⟨none, "zz", some "ignored"⟩
    (some "delete refused") (by decide) (by decide) rfl (by decide)

/-! ### Helper lemmas about the packages handler -/

theorem callbackCount_append (a b : List Effect) :
    callbackCount (a ++ b) = callbackCount a + callbackCount b :=
  List.countP_append _ _ _

theorem handleTarball_callbackCount (t : TarballRec) (pubErr : Option String) :
    callbackCount (handleTarball t pubErr) = 0 := by
  unfold handleTarball
  by_cases h1 : truthy t.path <;> by_cases h2 : truthy t.shasum <;>
    by_cases h3 : truthy t.tarball <;> cases pubErr <;>
      simp [callbackCount, h1, h2, h3]

theorem handleVersion_callbackCount (v : VersionRec) (e : Option String) :
    callbackCount (handleVersion v e) = 0 := by
  unfold handleVersion
  cases v.json with
  | none => rfl
  | some j =>
    by_cases h1 : truthy j.name <;> by_cases h2 : truthy v.version <;>
      simp [callbackCount, h1, h2]

theorem uploadIndex_callbackCount (m : Manifest) (e : Option String) :
    callbackCount (uploadIndex m e) = 0 := by
  unfold uploadIndex
  cases m.json with
  | none => rfl
  | some j => by_cases h1 : truthy j.name <;> simp [callbackCount, h1]

theorem callbackCount_flatten_zero (L : List (List Effect))
    (h : ∀ l ∈ L, callbackCount l = 0) : callbackCount L.flatten = 0 := by
  induction L with
  | nil => rfl
  | cons a L ih =>
    rw [List.flatten_cons, callbackCount_append, h a (List.mem_cons_self a L),
      ih (fun l hl => h l (List.mem_cons_of_mem a hl))]

/-- A trace with no callback invocation contains no `callbackFired`. -/
theorem callback_notMem_of_count_zero {l : List Effect} {e : Option String}
    (h : callbackCount l = 0) : Effect.callbackFired e ∉ l := by
  intro hm
  have hp := List.countP_eq_zero.mp h _ hm
  simp at hp

/-- Branch description of a packages run that reached the fan-out. -/
theorem packages_fanout_eq (msg : PubSubMessage) (env : PackagesEnv)
    (j : Option JsonDoc) (vs : List VersionRec) (ts : List TarballRec)
    (hd : (msg.data.getD "").length ≠ 0)
    (hres : env.resolve = .ok ⟨j, some vs, some ts⟩) :
    packages msg env =
      (ts.map (fun t => handleTarball t (env.publishError t))).flatten
        ++ (vs.map (fun v => handleVersion v (env.versionWriteError v))).flatten
        ++ uploadIndex ⟨j, some vs, some ts⟩ env.indexWriteError
        ++ [Effect.callbackFired none] := by
  unfold packages
  rw [if_neg hd, hres]

/-- Branch description of a packages run aborted by a missing `versions`
or `tarballs` collection. -/
theorem packages_abort_eq (msg : PubSubMessage) (env : PackagesEnv) (m : Manifest)
    (hd : (msg.data.getD "").length ≠ 0) (hres : env.resolve = .ok m)
    (hmiss : m.versions = none ∨ m.tarballs = none) :
    packages msg env = [Effect.logError "Didnt resolve versions", Effect.callbackFired none] := by
  unfold packages
  rw [if_neg hd, hres]
  obtain ⟨mj, mv, mt⟩ := m
  rcases hmiss with hv | ht
  · change mv = none at hv
    subst hv
    rfl
  · change mt = none at ht
    subst ht
    cases mv <;> rfl

/-- Every packages run fires the invocation callback exactly once. -/
theorem packages_callbackCount_one (msg : PubSubMessage) (env : PackagesEnv) :
    callbackCount (packages msg env) = 1 := by
  by_cases hd : (msg.data.getD "").length = 0
  · unfold packages
    rw [if_pos hd]
    rfl
  · cases hres : env.resolve with
    | error e =>
      unfold packages
      rw [if_neg hd, hres]
      rfl
    | ok m =>
      obtain ⟨mj, mv, mt⟩ := m
      cases mv with
      | none =>
        rw [packages_abort_eq msg env _ hd hres (Or.inl rfl)]
        rfl
      | some vs =>
        cases mt with
        | none =>
          rw [packages_abort_eq msg env _ hd hres (Or.inr rfl)]
          rfl
        | some ts =>
          rw [packages_fanout_eq msg env mj vs ts hd hres]
          have h1 : callbackCount
              ((ts.map (fun t => handleTarball t (env.publishError t))).flatten) = 0 := by
            refine callbackCount_flatten_zero _ ?_
            intro l hl
            obtain ⟨t, _, rfl⟩ := List.mem_map.mp hl
            exact handleTarball_callbackCount _ _
          have h2 : callbackCount
              ((vs.map (fun v => handleVersion v (env.versionWriteError v))).flatten) = 0 := by
            refine callbackCount_flatten_zero _ ?_
            intro l hl
            obtain ⟨v, _, rfl⟩ := List.mem_map.mp hl
            exact handleVersion_callbackCount _ _
          rw [callbackCount_append, callbackCount_append, callbackCount_append, h1, h2,
            uploadIndex_callbackCount]
          rfl

/-- Every callback a packages run fires carries no error argument. -/
theorem packages_callback_err_none (msg : PubSubMessage) (env : PackagesEnv)
    (e : Option String) (hm : Effect.callbackFired e ∈ packages msg env) : e = none := by
  by_cases hd : (msg.data.getD "").length = 0
  · unfold packages at hm
    rw [if_pos hd] at hm
    simp at hm
    exact hm
  · cases hres : env.resolve with
    | error err =>
      unfold packages at hm
      rw [if_neg hd, hres] at hm
      simp at hm
      exact hm
    | ok m =>
      obtain ⟨mj, mv, mt⟩ := m
      cases mv with
      | none =>
        rw [packages_abort_eq msg env _ hd hres (Or.inl rfl)] at hm
        simp at hm
        exact hm
      | some vs =>
        cases mt with
        | none =>
          rw [packages_abort_eq msg env _ hd hres (Or.inr rfl)] at hm
          simp at hm
          exact hm
        | some ts =>
          rw [packages_fanout_eq msg env mj vs ts hd hres] at hm
          have h1 : callbackCount
              ((ts.map (fun t => handleTarball t (env.publishError t))).flatten) = 0 := by
            refine callbackCount_flatten_zero _ ?_
            intro l hl
            obtain ⟨t, _, rfl⟩ := List.mem_map.mp hl
            exact handleTarball_callbackCount _ _
          have h2 : callbackCount
              ((vs.map (fun v => handleVersion v (env.versionWriteError v))).flatten) = 0 := by
            refine callbackCount_flatten_zero _ ?_
            intro l hl
            obtain ⟨v, _, rfl⟩ := List.mem_map.mp hl
            exact handleVersion_callbackCount _ _
          rcases List.mem_append.mp hm with hm' | hm'
          · rcases List.mem_append.mp hm' with hm'' | hm''
            · rcases List.mem_append.mp hm'' with hm3 | hm3
              · exact absurd hm3 (callback_notMem_of_count_zero h1)
              · exact absurd hm3 (callback_notMem_of_count_zero h2)
            · exact absurd hm'' (callback_notMem_of_count_zero (uploadIndex_callbackCount _ _))
          · simp at hm'
            exact hm'

/-! ### Claim C3 -/

/-- C3 counterexample: a message whose attributes map is absent makes
the tarballs handler throw while destructuring `message.attributes`,
before its completion callback is even constructed — an unhandled
failure with zero callback invocations, contrary to the claim. -/
theorem c3_counterexample :
    tarballs ⟨some "u", none⟩ ⟨none, "ab", none⟩ =
      Except.error "TypeError: cannot destructure message.attributes" ∧
    callbackCount (okTrace (tarballs ⟨some "u", none⟩ ⟨none, "ab", none⟩)) = 0 :=
  ⟨rfl, rfl⟩

/-- C3 amended: the packages handler raises no unhandled failure and
fires its completion callback exactly once on every input message
(including an absent data payload or attributes map, which it never
touches).  The tarballs handler does so exactly on the messages whose
attributes map is present and whose decoded url is empty (discarded
before the object-store handle is built) or whose path attribute is
truthy: with an absent attributes map the destructuring throws before
the callback exists, and with a non-empty url and a missing or empty
path attribute `bucket.file(path)` throws after the callback is built —
in both throwing cases the callback fires zero times. -/
theorem c3_completion_exactly_once :
    (∀ (msg : PubSubMessage) (env : PackagesEnv), callbackCount (packages msg env) = 1) ∧
    (∀ (mdata : Option String) (attrs : TarballAttrs) (env : TarballEnv),
      ((mdata.getD "").length = 0 ∨ truthy attrs.path = true) →
      ∃ tr, tarballs ⟨mdata, some attrs⟩ env = Except.ok tr ∧ callbackCount tr = 1) ∧
    (∀ (mdata : Option String) (attrs : TarballAttrs) (env : TarballEnv),
      (mdata.getD "").length ≠ 0 → truthy attrs.path = false →
      tarballs ⟨mdata, some attrs⟩ env = Except.error "Error: A file name must be specified." ∧
      callbackCount (okTrace (tarballs ⟨mdata, some attrs⟩ env)) = 0) := by
  refine ⟨packages_callbackCount_one, ?_, ?_⟩
  · intro mdata attrs env hor
    rw [tarballs_attrs_eq]
    by_cases h : (mdata.getD "").length = 0
    · rw [if_pos h]
      exact ⟨_, rfl, rfl⟩
    · have hp : truthy attrs.path = true := hor.resolve_left h
      rw [if_neg h, if_neg (by simp [hp])]
      refine ⟨_, rfl, ?_⟩
      cases env.pipeError
      · by_cases hh : some env.hash = attrs.shasum
        · rw [if_pos hh]
          rfl
        · rw [if_neg hh]
          rfl
      · rfl
  · intro mdata attrs env hurl hpath
    rw [tarballs_attrs_eq, if_neg hurl, if_pos (by simp [hpath])]
    exact ⟨rfl, rfl⟩

/-- Witness for `c3_completion_exactly_once`, applied to a concrete
packages message, a concrete well-formed tarballs message, and a
concrete tarballs message with an empty path attribute. -/
theorem c3_witness :
    callbackCount (packages ⟨none, none⟩
      ⟨Except.error "down", fun _ => none, fun _ => none, none⟩) = 1 ∧
    (∃ tr, tarballs ⟨some "u", some ⟨some "p", some "ab"⟩⟩ ⟨none, "ab", none⟩ = Except.ok tr ∧
      callbackCount tr = 1) ∧
    tarballs ⟨some "u", some ⟨some "", some "ab"⟩⟩ ⟨none, "ab", none⟩ =
      Except.error "Error: A file name must be specified." :=
  ⟨c3_completion_exactly_once.1 ⟨none, none⟩
      ⟨Except.error "down", fun _ => none, fun _ => none, none⟩,
   c3_completion_exactly_once.2.1 (some "u") ⟨some "p", some "ab"⟩ ⟨none, "ab", none⟩
     (Or.inr (by decide)),
   (c3_completion_exactly_once.2.2 (some "u") ⟨some "", some "ab"⟩ ⟨none, "ab", none⟩
     (by decide) (by decide)).1⟩

/-! ### Claim C10 -/

/-- C10: every terminal path of the packages handler invokes the
invoker's callback with no error argument, and exactly once — resolver
failure, malformed manifest, per-tarball publish failure and manifest
upload failure are all reported upstream as successful handling. -/
theorem c10_always_reported_success (msg : PubSubMessage) (env : PackagesEnv) :
    callbackCount (packages msg env) = 1 ∧
    ∀ e, Effect.callbackFired e ∈ packages msg env → e = none :=
  ⟨packages_callbackCount_one msg env,
   fun _ hm => packages_callback_err_none msg env _ hm⟩

/-- Witness for `c10_always_reported_success` at a concrete failing
resolver. -/
theorem c10_witness :
    callbackCount (packages ⟨some "pkg", none⟩
      ⟨Except.error "down", fun _ => none, fun _ => none, none⟩) = 1 ∧
    (none : Option String) = none :=
  ⟨(c10_always_reported_success ⟨some "pkg", none⟩
      ⟨Except.error "down", fun _ => none, fun _ => none, none⟩).1,
   (c10_always_reported_success ⟨some "pkg", none⟩
      ⟨Except.error "down", fun _ => none, fun _ => none, none⟩).2 none (by decide)⟩

/-! ### Helper lemmas about the fan-out attempts -/

theorem attempts_append (a b : List Effect) :
    attempts (a ++ b) = attempts a ++ attempts b :=
  List.filter_append _ _

/-- The versions finish handler ignores the write outcome. -/
theorem handleVersion_outcome_irrelevant (v : VersionRec) (e : Option String) :
    handleVersion v e = handleVersion v none := rfl

/-- The index finish handler ignores the write outcome. -/
theorem uploadIndex_outcome_irrelevant (m : Manifest) (e : Option String) :
    uploadIndex m e = uploadIndex m none := rfl

theorem attempts_flatten (L : List (List Effect)) :
    attempts L.flatten = (L.map attempts).flatten := by
  induction L with
  | nil => rfl
  | cons a L ih => rw [List.flatten_cons, attempts_append, ih, List.map_cons, List.flatten_cons]

/-- The attempt a tarball entry contributes is determined by the entry
alone: the publish attempt when it is well formed, nothing otherwise —
never by the publish outcome. -/
theorem attempts_handleTarball (t : TarballRec) (pubErr : Option String) :
    attempts (handleTarball t pubErr) =
      if wellFormedTarball t then
        [Effect.publishTarball (t.tarball.getD "") (t.path.getD "") (t.shasum.getD "")]
      else [] := by
  unfold handleTarball wellFormedTarball
  by_cases h1 : truthy t.path <;> by_cases h2 : truthy t.shasum <;>
    by_cases h3 : truthy t.tarball <;> cases pubErr <;>
      simp [attempts, isAttempt, h1, h2, h3, List.filter]

theorem publish_mem_handleTarball (t : TarballRec) (pubErr : Option String)
    (hw : wellFormedTarball t = true) :
    Effect.publishTarball (t.tarball.getD "") (t.path.getD "") (t.shasum.getD "")
      ∈ handleTarball t pubErr := by
  unfold wellFormedTarball at hw
  rw [Bool.and_eq_true, Bool.and_eq_true] at hw
  obtain ⟨⟨h1, h2⟩, h3⟩ := hw
  unfold handleTarball
  simp [h1, h2, h3]

theorem write_mem_handleVersion (v : VersionRec) (e : Option String) (jd : JsonDoc)
    (hj : v.json = some jd) (hn : truthy jd.name = true) (hv : truthy v.version = true) :
    Effect.writeObject (versionKey (jd.name.getD "") (v.version.getD ""))
      ∈ handleVersion v e := by
  unfold handleVersion
  rw [hj]
  simp [hn, hv]

theorem write_mem_uploadIndex (m : Manifest) (e : Option String) (jd : JsonDoc)
    (hj : m.json = some jd) (hn : truthy jd.name = true) :
    Effect.writeObject ((jd.name.getD "") ++ "/index.json") ∈ uploadIndex m e := by
  unfold uploadIndex
  rw [hj]
  simp [hn]

/-! ### Claim C4 -/

/-- C4: on a manifest that reached the fan-out, the packages handler
makes one publish attempt for each well-formed tarball entry, one
storage write attempt for each well-formed version entry, and one write
attempt for the index (when the package document carries a name), for
every assignment of outcomes to the external calls — so a malformed
entry, a failed publish, or a failed write never suppresses a sibling
attempt (the attempts are invariant under the outcome part of the
environment), and the invocation callback fires exactly once, after
every fan-out effect. -/
theorem c4_fanout_attempts (msg : PubSubMessage) (env : PackagesEnv)
    (j : Option JsonDoc) (vs : List VersionRec) (ts : List TarballRec)
    (hd : (msg.data.getD "").length ≠ 0)
    (hres : env.resolve = .ok ⟨j, some vs, some ts⟩) :
    (∀ t ∈ ts, wellFormedTarball t = true →
      Effect.publishTarball (t.tarball.getD "") (t.path.getD "") (t.shasum.getD "")
        ∈ packages msg env) ∧
    (∀ v ∈ vs, ∀ jd : JsonDoc, v.json = some jd → truthy jd.name = true →
      truthy v.version = true →
      Effect.writeObject (versionKey (jd.name.getD "") (v.version.getD ""))
        ∈ packages msg env) ∧
    (∀ jd : JsonDoc, j = some jd → truthy jd.name = true →
      Effect.writeObject ((jd.name.getD "") ++ "/index.json") ∈ packages msg env) ∧
    (∃ pre, packages msg env = pre ++ [Effect.callbackFired none] ∧
      callbackCount pre = 0) ∧
    (∀ env2 : PackagesEnv, env2.resolve = env.resolve →
      attempts (packages msg env2) = attempts (packages msg env)) := by
  rw [packages_fanout_eq msg env j vs ts hd hres]
  refine ⟨?_, ?_, ?_, ?_, ?_⟩
  · intro t ht hw
    refine List.mem_append_left _ (List.mem_append_left _ (List.mem_append_left _ ?_))
    rw [List.mem_flatten]
    exact ⟨handleTarball t (env.publishError t),
      List.mem_map_of_mem _ ht, publish_mem_handleTarball t _ hw⟩
  · intro v hv jd hj hn hver
    refine List.mem_append_left _ (List.mem_append_left _ (List.mem_append_right _ ?_))
    rw [List.mem_flatten]
    exact ⟨handleVersion v (env.versionWriteError v),
      List.mem_map_of_mem _ hv, write_mem_handleVersion v _ jd hj hn hver⟩
  · intro jd hj hn
    refine List.mem_append_left _ (List.mem_append_right _ ?_)
    exact write_mem_uploadIndex _ _ jd hj hn
  · refine ⟨_, rfl, ?_⟩
    have h1 : callbackCount
        ((ts.map (fun t => handleTarball t (env.publishError t))).flatten) = 0 := by
      refine callbackCount_flatten_zero _ ?_
      intro l hl
      obtain ⟨t, _, rfl⟩ := List.mem_map.mp hl
      exact handleTarball_callbackCount _ _
    have h2 : callbackCount
        ((vs.map (fun v => handleVersion v (env.versionWriteError v))).flatten) = 0 := by
      refine callbackCount_flatten_zero _ ?_
      intro l hl
      obtain ⟨v, _, rfl⟩ := List.mem_map.mp hl
      exact handleVersion_callbackCount _ _
    rw [callbackCount_append, callbackCount_append, h1, h2, uploadIndex_callbackCount]
  · intro env2 hres2
    rw [packages_fanout_eq msg env2 j vs ts hd (hres2.trans hres)]
    simp only [attempts_append, attempts_flatten, List.map_map, Function.comp_def,
      attempts_handleTarball, handleVersion_outcome_irrelevant, uploadIndex_outcome_irrelevant]

/-- Witness for `c4_fanout_attempts`: a manifest with one well-formed
tarball (whose publish fails), one malformed and one well-formed
version, and a named index. -/
theorem c4_witness :
    Effect.publishTarball "http://u" "a/b.tgz" "ab" ∈
      packages ⟨some "pkg", none⟩
        ⟨Except.ok ⟨some ⟨some "n"⟩,
            some [⟨none, some "1.0.0"⟩, ⟨some ⟨some "n"⟩, some "1.0.0"⟩],
            some [⟨some "a/b.tgz", some "ab", some "http://u"⟩]⟩,
          fun _ => some "publish down", fun _ => none, none⟩ :=
  (c4_fanout_attempts ⟨some "pkg", none⟩
      ⟨Except.ok ⟨some ⟨some "n"⟩,
          some [⟨none, some "1.0.0"⟩, ⟨some ⟨some "n"⟩, some "1.0.0"⟩],
          some [⟨some "a/b.tgz", some "ab", some "http://u"⟩]⟩,
        fun _ => some "publish down", fun _ => none, none⟩
      (some ⟨some "n"⟩) [⟨none, some "1.0.0"⟩, ⟨some ⟨some "n"⟩, some "1.0.0"⟩]
      [⟨some "a/b.tgz", some "ab", some "http://u"⟩]
      (by decide) rfl).1
    ⟨some "a/b.tgz", some "ab", some "http://u"⟩ (by decide) (by decide)

/-! ### Claim C6 -/

/-- C6 counterexample: a resolved manifest whose index (`manifest.json`)
is missing but whose `versions` and `tarballs` are present arrays is
not aborted by the deployed packages handler — the fan-out proceeds and
a publish attempt for the tarball entry is issued, contrary to the
claimed abort on a missing index collection. -/
theorem c6_counterexample :
    Effect.publishTarball "http://u" "a/b.tgz" "ab" ∈
      packages ⟨some "pkg", none⟩
        ⟨Except.ok ⟨none, some [], some [⟨some "a/b.tgz", some "ab", some "http://u"⟩]⟩,
          fun _ => none, fun _ => none, none⟩ := by
  decide

/-- C6 amended: the deployed packages handler aborts the whole
invocation with no fan-out — no publish attempt and no storage write,
one logged error, one callback — exactly when the resolved manifest's
`versions` or `tarballs` collection is falsy/missing; it performs no
`Array.isArray` check, and a missing index document does not abort the
invocation (it is only detected inside the index upload obligation). -/
theorem c6_missing_collection_aborts (msg : PubSubMessage) (env : PackagesEnv)
    (m : Manifest) (hd : (msg.data.getD "").length ≠ 0) (hres : env.resolve = .ok m)
    (hmiss : m.versions = none ∨ m.tarballs = none) :
    attempts (packages msg env) = [] ∧
    Effect.logError "Didnt resolve versions" ∈ packages msg env ∧
    callbackCount (packages msg env) = 1 := by
  rw [packages_abort_eq msg env m hd hres hmiss]
  exact ⟨rfl, List.mem_cons_self _ _, rfl⟩

/-- Witness for `c6_missing_collection_aborts` at a manifest with a
missing versions collection. -/
theorem c6_witness :
    attempts (packages ⟨some "pkg", none⟩
      ⟨Except.ok ⟨none, none, some []⟩, fun _ => none, fun _ => none, none⟩) = [] ∧
    Effect.logError "Didnt resolve versions" ∈ packages ⟨some "pkg", none⟩
      ⟨Except.ok ⟨none, none, some []⟩, fun _ => none, fun _ => none, none⟩ ∧
    callbackCount (packages ⟨some "pkg", none⟩
      ⟨Except.ok ⟨none, none, some []⟩, fun _ => none, fun _ => none, none⟩) = 1 :=
  c6_missing_collection_aborts ⟨some "pkg", none⟩
    ⟨Except.ok ⟨none, none, some []⟩, fun _ => none, fun _ => none, none⟩
    ⟨none, none, some []⟩ (by decide) rfl (Or.inl rfl)

/-! ### Claim C2 -/

/-- The follower's cursor update is exactly the binary max. -/
theorem topicPublished_eq_max (s c : Int) : topicPublished s c = max s c := by
  unfold topicPublished
  rcases le_or_lt c s with h | h
  · rw [if_neg (not_lt.mpr h), max_eq_left h]
  · rw [if_pos h, max_eq_right h.le]

/-- C2: within one process lifetime the in-memory cursor after any
sequence of publish-attempt completions equals the running maximum of
the startup cursor and every completed `change.seq`, and a single
completion never sets the cursor below its current value. -/
theorem c2_cursor_monotone :
    (∀ (start : Int) (completed : List Int),
      runPublishes start completed = completed.foldl max start) ∧
    (∀ s c : Int, s ≤ topicPublished s c) := by
  constructor
  · intro start completed
    unfold runPublishes
    congr 1
    funext s c
    exact topicPublished_eq_max s c
  · intro s c
    rw [topicPublished_eq_max]
    exact le_max_left s c

/-! ### Claim C8 -/

/-- The coalescing invariant: the `syncingSeq` flag is set exactly while
a `doc.set` is outstanding. -/
def syncFlagInv (s : SyncState) : Prop :=
  s.syncingSeq = s.inflight.isSome

theorem syncFlagInv_step (s : SyncState) (e : SyncEvent) (h : syncFlagInv s) :
    syncFlagInv (syncStep s e) := by
  unfold syncFlagInv at h ⊢
  cases e with
  | tick =>
    unfold syncStep
    by_cases hs : s.syncingSeq = true
    · rw [if_pos hs]
      exact h
    · rw [if_neg hs]
      rfl
  | settle ok =>
    cases hin : s.inflight with
    | none => simpa [syncStep, hin] using h
    | some v => simp [syncStep, hin]
  | change n => exact h

/-- The coalescing invariant holds in every reachable state. -/
theorem runSync_flagInv (startSeq : Int) (evs : List SyncEvent) :
    syncFlagInv (runSync startSeq evs) := by
  unfold runSync
  suffices haux : ∀ (l : List SyncEvent) (s : SyncState),
      syncFlagInv s → syncFlagInv (l.foldl syncStep s) from haux evs _ rfl
  intro l
  induction l with
  | nil => exact fun s h => h
  | cons e l ih => exact fun s h => ih _ (syncFlagInv_step s e h)

/-- C8: in every state reachable from startup, the `syncingSeq` flag is
set exactly while a checkpoint write is outstanding (so at most one
persist is ever in flight); a timer tick while the flag is set is a
no-op on the whole state; a tick while it is clear starts a write
carrying the current (newest) cursor value; the settlement of the
outstanding write — success or failure — clears the flag; and a
publish-completion never touches the flag. -/
theorem c8_persist_coalescing (startSeq : Int) (evs : List SyncEvent) :
    ((runSync startSeq evs).syncingSeq = (runSync startSeq evs).inflight.isSome) ∧
    ((runSync startSeq evs).syncingSeq = true →
      syncStep (runSync startSeq evs) SyncEvent.tick = runSync startSeq evs) ∧
    ((runSync startSeq evs).syncingSeq = false →
      (syncStep (runSync startSeq evs) SyncEvent.tick).inflight =
        some (runSync startSeq evs).seq) ∧
    (∀ ok, (syncStep (runSync startSeq evs) (SyncEvent.settle ok)).syncingSeq = false) ∧
    (∀ n, (syncStep (runSync startSeq evs) (SyncEvent.change n)).syncingSeq =
      (runSync startSeq evs).syncingSeq) := by
  have hinv := runSync_flagInv startSeq evs
  unfold syncFlagInv at hinv
  set s := runSync startSeq evs with hs
  refine ⟨hinv, ?_, ?_, ?_, fun n => rfl⟩
  · intro h
    unfold syncStep
    rw [if_pos h]
  · intro h
    unfold syncStep
    rw [if_neg (by simp [h])]
  · intro ok
    cases hin : s.inflight with
    | none =>
      have : s.syncingSeq = false := by rw [hinv, hin]; rfl
      simpa [syncStep, hin] using this
    | some v => simp [syncStep, hin]

/-- Witness for `c8_persist_coalescing` after a single timer tick. -/
theorem c8_witness :
    ((runSync 0 [SyncEvent.tick]).syncingSeq =
      (runSync 0 [SyncEvent.tick]).inflight.isSome) ∧
    syncStep (runSync 0 [SyncEvent.tick]) SyncEvent.tick = runSync 0 [SyncEvent.tick] :=
  ⟨(c8_persist_coalescing 0 [SyncEvent.tick]).1,
   (c8_persist_coalescing 0 [SyncEvent.tick]).2.1 (by decide)⟩

/-! ### Claim C9 -/

/-- C9: a failed startup read of the checkpoint and a non-existent
checkpoint document both exit the process fatally, before any
subscription to the change feed; the only way startup reaches the
following state is with exactly the cursor stored in the document — no
default starting cursor is ever substituted. -/
theorem c9_fatal_startup :
    (∀ e : String, followerStartup (Except.error e) = StartupOutcome.exitFatal) ∧
    (∀ d : CheckpointDoc, d.docExists = false →
      followerStartup (Except.ok d) = StartupOutcome.exitFatal) ∧
    (∀ (d : CheckpointDoc) (c : Int),
      followerStartup (Except.ok d) = StartupOutcome.following c →
      d.docExists = true ∧ c = d.seq) := by
  refine ⟨fun e => rfl, ?_, ?_⟩
  · intro d h
    show (if d.docExists = true then StartupOutcome.following d.seq
      else StartupOutcome.exitFatal) = StartupOutcome.exitFatal
    rw [if_neg (by simp [h])]
  · intro d c h
    change (if d.docExists = true then StartupOutcome.following d.seq
      else StartupOutcome.exitFatal) = StartupOutcome.following c at h
    by_cases hd : d.docExists = true
    · rw [if_pos hd] at h
      exact ⟨hd, (StartupOutcome.following.inj h).symm⟩
    · rw [if_neg hd] at h
      simp at h

/-- Witness for `c9_fatal_startup` at a concrete failed read, a
concrete missing document, and a concrete existing document. -/
theorem c9_witness :
    followerStartup (Except.error "unable to get seq") = StartupOutcome.exitFatal ∧
    followerStartup (Except.ok ⟨false, 42⟩) = StartupOutcome.exitFatal ∧
    ((⟨true, 42⟩ : CheckpointDoc).docExists = true ∧ (42 : Int) = (⟨true, 42⟩ : CheckpointDoc).seq) :=
  ⟨c9_fatal_startup.1 "unable to get seq",
   c9_fatal_startup.2.1 ⟨false, 42⟩ rfl,
   c9_fatal_startup.2.2 ⟨true, 42⟩ 42 rfl⟩

end GcpMirror
